import Mathlib

/-!
Shallow embedding of the rpi_ws281x-c library core (src/lib.rs): the channel
model, the driver builder, and the driver render/stop lifecycle.

Modelling conventions:
- C pointers are modelled as `Option Nat` (`none` = null, `some a` = a non-null
  address).
- Machine integers are modelled as `Nat`/`Int`; casts that matter (`i32` used
  `as usize` in `slice::from_raw_parts`) are explicit via `intAsUsize`.
- A Rust `debug_assert!` is modelled by returning `Option`: `none` means the
  debug assertion fired (a construction-time contract violation), `some x`
  means the assertion passed and `x` is the result.
- External C calls (`ws2811_render`, `ws2811_wait`) are hardware effects; the
  Rust code only inspects their return code, so the functions below are
  parameterised over that code. `ws2811_fini` is modelled from its documented
  behaviour (see its doc comment).
-/

namespace RpiWs281x

/-- Target frequency constant of the C library (800 kHz). -/
def WS2811_TARGET_FREQ : Nat := 800000

/-- Strip-type constant WS2811_STRIP_RGB of the C library. -/
def WS2811_STRIP_RGB : Int := 0x00100800

/-- Return codes of the C library (ws2811_return_t), re-exported as ErrorCode. -/
inductive ws2811_return_t
  | WS2811_SUCCESS
  | WS2811_ERROR_GENERIC
  | WS2811_ERROR_OUT_OF_MEMORY
  | WS2811_ERROR_HW_NOT_SUPPORTED
  | WS2811_ERROR_MEM_LOCK
  | WS2811_ERROR_MMAP
  | WS2811_ERROR_MAP_REGISTERS
  | WS2811_ERROR_GPIO_INIT
  | WS2811_ERROR_PWM_SETUP
  | WS2811_ERROR_MAILBOX_DEVICE
  | WS2811_ERROR_DMA
  | WS2811_ERROR_ILLEGAL_GPIO
  | WS2811_ERROR_PCM_SETUP
  | WS2811_ERROR_SPI_SETUP
  | WS2811_ERROR_SPI_TRANSFER
  deriving DecidableEq, Repr

/-- Fields of bindings::ws2811_channel_t as used by src/lib.rs. -/
structure ws2811_channel_t where
  gpionum : Int
  invert : Int
  count : Int
  strip_type : Int
  leds : Option Nat
  brightness : Nat
  wshift : Nat
  rshift : Nat
  gshift : Nat
  bshift : Nat
  gamma : Option Nat
  deriving DecidableEq, Repr

/-- PWM pins (repr u32 enum; the value is the GPIO number). -/
inductive PwmPin
  | Pwm0_1
  | Pwm0_2
  | Pwm1_1
  | Pwm1_2
  deriving DecidableEq, Repr

/-- GPIO number of a PWM pin (the enum discriminant, as cast by `pin as _`). -/
def PwmPin.toGpio : PwmPin → Int
  | .Pwm0_1 => 12
  | .Pwm0_2 => 18
  | .Pwm1_1 => 13
  | .Pwm1_2 => 19

/-- PCM pins (repr u32 enum; the value is the GPIO number). -/
inductive PcmPin
  | Board
  | P5
  deriving DecidableEq, Repr

/-- GPIO number of a PCM pin. -/
def PcmPin.toGpio : PcmPin → Int
  | .Board => 21
  | .P5 => 31

/-- SPI pins (repr u32 enum; the value is the GPIO number). -/
inductive SpiPin
  | Spi0
  deriving DecidableEq, Repr

/-- GPIO number of an SPI pin. -/
def SpiPin.toGpio : SpiPin → Int
  | .Spi0 => 10

/-- Driver channel: transparent wrapper over ws2811_channel_t. -/
structure Channel where
  raw : ws2811_channel_t
  deriving DecidableEq, Repr

/-- Channel::disabled — creates an unused channel. -/
def Channel.disabled : Channel :=
  { raw :=
    { gpionum := 0
      invert := 0
      count := 0
      strip_type := WS2811_STRIP_RGB
      leds := none
      brightness := 0
      wshift := 0
      rshift := 0
      gshift := 0
      bshift := 0
      gamma := none } }

/-- Channel::set_pwm — disabled channel with the PWM pin's GPIO number. -/
def Channel.set_pwm (pin : PwmPin) : Channel :=
  { Channel.disabled with raw := { Channel.disabled.raw with gpionum := pin.toGpio } }

/-- Channel::set_pcm — disabled channel with the PCM pin's GPIO number. -/
def Channel.set_pcm (pin : PcmPin) : Channel :=
  { Channel.disabled with raw := { Channel.disabled.raw with gpionum := pin.toGpio } }

/-- Channel::set_spi — disabled channel with the SPI pin's GPIO number. -/
def Channel.set_spi (pin : SpiPin) : Channel :=
  { Channel.disabled with raw := { Channel.disabled.raw with gpionum := pin.toGpio } }

/-- Channel::set_led_count — `debug_assert!(led_count > 0)`, then stores the
u16 count into the i32 field (`led_count as _`, value preserving). -/
def Channel.set_led_count (self : Channel) (led_count : Nat) : Option Channel :=
  if led_count > 0 then
    some { self with raw := { self.raw with count := (led_count : Int) } }
  else none

/-- Channel::set_brightness (consuming setter). -/
def Channel.set_brightness (self : Channel) (brightness : Nat) : Channel :=
  { self with raw := { self.raw with brightness := brightness } }

/-- Channel::get_brightness. -/
def Channel.get_brightness (self : Channel) : Nat :=
  self.raw.brightness

/-- Channel::change_brightness (in-place mutation, modelled as returning the
updated channel). -/
def Channel.change_brightness (self : Channel) (brightness : Nat) : Channel :=
  { self with raw := { self.raw with brightness := brightness } }

/-- Rust cast `(i : i32) as usize` on a 64-bit target. -/
def intAsUsize (i : Int) : Nat := (i % (2 : Int) ^ 64).toNat

/-- Result of `slice::from_raw_parts(ptr, len)`: a view with a base address and
a length. -/
structure LedsSlice where
  ptr : Nat
  len : Nat
  deriving DecidableEq, Repr

/-- Channel::leds — `debug_assert!(!leds.is_null())` (modelled as `none` when
the buffer pointer is null), then `slice::from_raw_parts(leds, count as usize)`. -/
def Channel.leds (self : Channel) : Option LedsSlice :=
  match self.raw.leds with
  | none => none
  | some p => some { ptr := p, len := intAsUsize self.raw.count }

/-- Channel::leds_mut — same contract and length as Channel::leds. -/
def Channel.leds_mut (self : Channel) : Option LedsSlice :=
  match self.raw.leds with
  | none => none
  | some p => some { ptr := p, len := intAsUsize self.raw.count }

/-- LED driver builder. -/
structure DriverBuilder where
  render_wait_time : Nat
  freq : Nat
  dma_channel : Nat
  channel : ws2811_channel_t × ws2811_channel_t
  deriving DecidableEq, Repr

/-- DriverBuilder::new — default configuration. -/
def DriverBuilder.new : DriverBuilder :=
  { render_wait_time := 0
    freq := WS2811_TARGET_FREQ
    dma_channel := 10
    channel := (Channel.disabled.raw, Channel.disabled.raw) }

/-- DriverBuilder::render_wait_time (the setter method; named apart from the
field, which Lean does not allow to share the method's name). -/
def DriverBuilder.set_render_wait_time (self : DriverBuilder) (t : Nat) : DriverBuilder :=
  { self with render_wait_time := t }

/-- DriverBuilder::freq — `debug_assert!(freq > 0)`, then stores the frequency. -/
def DriverBuilder.set_freq (self : DriverBuilder) (freq : Nat) : Option DriverBuilder :=
  if freq > 0 then some { self with freq := freq } else none

/-- DriverBuilder::dma. -/
def DriverBuilder.dma (self : DriverBuilder) (dma_num : Nat) : DriverBuilder :=
  { self with dma_channel := dma_num }

/-- DriverBuilder::channel1 — `debug_assert!(gpionum != 13)` then
`debug_assert!(gpionum != 19)`, then stores the channel in slot 0. -/
def DriverBuilder.channel1 (self : DriverBuilder) (channel : Channel) : Option DriverBuilder :=
  if channel.raw.gpionum = PwmPin.Pwm1_1.toGpio then none
  else if channel.raw.gpionum = PwmPin.Pwm1_2.toGpio then none
  else some { self with channel := (channel.raw, self.channel.2) }

/-- DriverBuilder::channel2 — `debug_assert!(gpionum == 13)` then
`debug_assert!(gpionum == 19)` (both, in sequence, exactly as the source is
written), then stores the channel in slot 1. -/
def DriverBuilder.channel2 (self : DriverBuilder) (channel : Channel) : Option DriverBuilder :=
  if channel.raw.gpionum = PwmPin.Pwm1_1.toGpio then
    if channel.raw.gpionum = PwmPin.Pwm1_2.toGpio then
      some { self with channel := (self.channel.1, channel.raw) }
    else none
  else none

/-- Fields of bindings::ws2811_t as used by src/lib.rs. -/
structure ws2811_t where
  render_wait_time : Nat
  device : Option Nat
  rpi_hw : Option Nat
  freq : Nat
  dmanum : Int
  channel : ws2811_channel_t × ws2811_channel_t
  deriving DecidableEq, Repr

/-- rpi_ws281x driver wrapper. -/
structure Driver where
  inner : ws2811_t
  deriving DecidableEq, Repr

/-- DriverBuilder::build — assembles a ws2811_t with a literal
`render_wait_time: 0`, null device and rpi_hw pointers, the configured freq,
the dma channel cast to i32, and the two channel slots; always returns Ok. -/
def DriverBuilder.build (self : DriverBuilder) : Except ws2811_return_t Driver :=
  Except.ok
    { inner :=
      { render_wait_time := 0
        device := none
        rpi_hw := none
        freq := self.freq
        dmanum := (self.dma_channel : Int)
        channel := self.channel } }

/-- Modelled from the spec: `ws2811_fini` lives in the external C hardware
layer, not in this repository. Per the spec ("releases DMA buffers, unmaps
registers, nulls internal handles") and the source comment ("all dynamic
memory is freed and NULLed after this"), its observable effect on the fields
this wrapper inspects is that the device handle becomes null. -/
def ws2811_fini (inner : ws2811_t) : ws2811_t :=
  { inner with device := none }

/-- Driver::stop — calls ws2811_fini only when the device handle is non-null.
The second component counts how many ws2811_fini calls this stop performed. -/
def Driver.stop (self : Driver) : Driver × Nat :=
  if self.inner.device.isSome then ({ inner := ws2811_fini self.inner }, 1)
  else (self, 0)

/-- Drop for Driver — drop simply calls stop. -/
def Driver.drop (self : Driver) : Driver × Nat :=
  Driver.stop self

/-- A sequence of n stop calls; returns the final driver and the total number
of ws2811_fini calls performed over the whole sequence. -/
def Driver.stopTrace : Driver → Nat → Driver × Nat
  | d, 0 => (d, 0)
  | d, n + 1 =>
    let s := Driver.stop d
    let t := Driver.stopTrace s.1 n
    (t.1, s.2 + t.2)

/-- Driver::render — the hardware call ws2811_render is external; the wrapper
maps its return code: WS2811_SUCCESS becomes Ok(()), anything else becomes
Err carrying that code. -/
def Driver.render (_self : Driver) (result : ws2811_return_t) : Except ws2811_return_t Unit :=
  match result with
  | .WS2811_SUCCESS => Except.ok ()
  | error => Except.error error

/-- Driver::wait — identical return-code mapping over ws2811_wait. -/
def Driver.wait (_self : Driver) (result : ws2811_return_t) : Except ws2811_return_t Unit :=
  match result with
  | .WS2811_SUCCESS => Except.ok ()
  | error => Except.error error

/-- Continuation byte of UTF-8: 0x80..=0xBF. -/
def utf8ContByte (b : Nat) : Bool := 0x80 ≤ b && b ≤ 0xBF

/-- UTF-8 validity of a byte sequence, as checked by core::str::from_utf8
(standard UTF-8 ranges, surrogates and overlong encodings rejected). -/
def utf8Valid : List Nat → Bool
  | [] => true
  | b :: rest =>
    if b ≤ 0x7F then utf8Valid rest
    else if 0xC2 ≤ b && b ≤ 0xDF then
      match rest with
      | b1 :: r => utf8ContByte b1 && utf8Valid r
      | [] => false
    else if b = 0xE0 then
      match rest with
      | b1 :: b2 :: r => (0xA0 ≤ b1 && b1 ≤ 0xBF) && utf8ContByte b2 && utf8Valid r
      | _ => false
    else if (0xE1 ≤ b && b ≤ 0xEC) || (0xEE ≤ b && b ≤ 0xEF) then
      match rest with
      | b1 :: b2 :: r => utf8ContByte b1 && utf8ContByte b2 && utf8Valid r
      | _ => false
    else if b = 0xED then
      match rest with
      | b1 :: b2 :: r => (0x80 ≤ b1 && b1 ≤ 0x9F) && utf8ContByte b2 && utf8Valid r
      | _ => false
    else if b = 0xF0 then
      match rest with
      | b1 :: b2 :: b3 :: r =>
        (0x90 ≤ b1 && b1 ≤ 0xBF) && utf8ContByte b2 && utf8ContByte b3 && utf8Valid r
      | _ => false
    else if 0xF1 ≤ b && b ≤ 0xF3 then
      match rest with
      | b1 :: b2 :: b3 :: r =>
        utf8ContByte b1 && utf8ContByte b2 && utf8ContByte b3 && utf8Valid r
      | _ => false
    else if b = 0xF4 then
      match rest with
      | b1 :: b2 :: b3 :: r =>
        (0x80 ≤ b1 && b1 ≤ 0x8F) && utf8ContByte b2 && utf8ContByte b3 && utf8Valid r
      | _ => false
    else false

/-- Fields of bindings::rpi_hw_t as read by src/lib.rs. The desc field is the
byte content behind the C string pointer (NUL terminator included somewhere,
or absent). -/
structure rpi_hw_t where
  hwver : Nat
  periph_base : Nat
  videocore_base : Nat
  desc : List Nat
  deriving DecidableEq, Repr

/-- Raspberry PI information: transparent wrapper over a static rpi_hw_t. -/
structure PiInfo where
  info : rpi_hw_t
  deriving DecidableEq, Repr

/-- libc::strlen — the bytes before the first NUL. -/
def strlenBytes (l : List Nat) : List Nat :=
  l.takeWhile (fun b => b ≠ 0)

/-- PiInfo::description — takes strlen(desc) bytes, returns them as a &str
when they are valid UTF-8 (a &str is a view of the same bytes, so the decoded
text is modelled by the byte sequence itself) and the empty string otherwise. -/
def PiInfo.description (self : PiInfo) : List Nat :=
  match utf8Valid (strlenBytes self.info.desc) with
  | true => strlenBytes self.info.desc
  | false => []

/-- PiInfo::revision. -/
def PiInfo.revision (self : PiInfo) : Nat := self.info.hwver

/-! Theorems. -/

/-- Claim C1. The claim says a Channel bound to GPIO 13 (PwmPin::Pwm1_1) or
GPIO 19 (PwmPin::Pwm1_2) passes channel2's construction-time contract and is
stored in the second slot. In the source, channel2 asserts
`gpionum == 13` AND `gpionum == 19` in sequence, which no channel can satisfy,
so the debug assertion always fires: in particular it fires on both secondary
PWM pins (modelled as the result `none`), refuting the claim. -/
theorem C1_channel2_assert_always_fires :
    (∀ (b : DriverBuilder) (c : Channel), DriverBuilder.channel2 b c = none) ∧
    DriverBuilder.channel2 DriverBuilder.new (Channel.set_pwm PwmPin.Pwm1_1) = none ∧
    DriverBuilder.channel2 DriverBuilder.new (Channel.set_pwm PwmPin.Pwm1_2) = none := by
  refine ⟨?_, rfl, rfl⟩
  intro b c
  unfold DriverBuilder.channel2
  split
  · split
    · rename_i h1 h2
      exact absurd (h1.symm.trans h2) (by decide)
    · rfl
  · rfl

/-- Claim C2. The claim says build() carries every configured value over,
including render_wait_time. The source's build() hardcodes
`render_wait_time: 0` instead of `self.render_wait_time`: a builder configured
with render_wait_time 5 produces a Driver whose render_wait_time is 0. The
freq, dma_channel and channel slots are carried over correctly (second and
third conjuncts), so the render_wait_time conjunct alone fails. -/
theorem C2_build_ignores_render_wait_time :
    (DriverBuilder.set_render_wait_time DriverBuilder.new 5).render_wait_time = 5 ∧
    Except.map (fun d => d.inner.render_wait_time)
      (DriverBuilder.build (DriverBuilder.set_render_wait_time DriverBuilder.new 5)) =
      Except.ok 0 ∧
    (∀ b : DriverBuilder,
      Except.map (fun d => (d.inner.freq, d.inner.dmanum, d.inner.channel))
        (DriverBuilder.build b) =
        Except.ok (b.freq, (b.dma_channel : Int), b.channel)) := by
  exact ⟨rfl, rfl, fun b => rfl⟩

/-- Helper: once the device handle is null, any sequence of stop calls leaves
the driver unchanged and performs no ws2811_fini call. -/
theorem Driver.stopTrace_device_none (d : Driver) (h : d.inner.device = none) :
    ∀ n, Driver.stopTrace d n = (d, 0) := by
  intro n
  induction n with
  | zero => rfl
  | succ n ih => simp [Driver.stopTrace, Driver.stop, h, ih]

/-- Claim C3. stop() performs the hardware release (ws2811_fini) only when the
device handle is non-null, and the release nulls the handle; hence after the
first stop no later stop in the sequence ever calls ws2811_fini again, a
single stop calls it at most once, drop is exactly stop, and when the handle
is non-null at scope exit the drop performs the release exactly once. -/
theorem C3_stop_idempotent_release (d : Driver) (n : Nat) :
    Driver.drop d = Driver.stop d ∧
    (Driver.stop d).1.inner.device = none ∧
    (Driver.stopTrace d (n + 1)).2 = (Driver.stop d).2 ∧
    (Driver.stop d).2 ≤ 1 ∧
    (d.inner.device ≠ none → (Driver.drop d).2 = 1) := by
  have hnone : (Driver.stop d).1.inner.device = none := by
    unfold Driver.stop
    by_cases h : d.inner.device.isSome
    · simp [h, ws2811_fini]
    · simp only [h, if_false]
      exact Option.not_isSome_iff_eq_none.mp h
  refine ⟨rfl, hnone, ?_, ?_, ?_⟩
  · show (Driver.stopTrace d (n + 1)).2 = (Driver.stop d).2
    simp [Driver.stopTrace, Driver.stopTrace_device_none (Driver.stop d).1 hnone n]
  · unfold Driver.stop
    by_cases h : d.inner.device.isSome <;> simp [h]
  · intro h
    unfold Driver.drop Driver.stop
    simp [Option.isSome_iff_ne_none.mpr h]

/-- Witness for C3 at a concrete driver whose device handle is non-null. -/
theorem C3_stop_idempotent_release_witness :
    (Driver.drop
      ⟨⟨0, some 1, none, 800000, 10, (Channel.disabled.raw, Channel.disabled.raw)⟩⟩).2 = 1 :=
  (C3_stop_idempotent_release
    ⟨⟨0, some 1, none, 800000, 10, (Channel.disabled.raw, Channel.disabled.raw)⟩⟩ 0).2.2.2.2
    (by decide)

/-- Claim C4. channel1 fires its debug assertion exactly on the secondary PWM
pins (GPIO 13 and GPIO 19); any other pin is accepted and the channel is
stored in the first slot, the rest of the builder unchanged. -/
theorem C4_channel1_contract (b : DriverBuilder) (c : Channel) :
    ((c.raw.gpionum = 13 ∨ c.raw.gpionum = 19) → DriverBuilder.channel1 b c = none) ∧
    (c.raw.gpionum ≠ 13 → c.raw.gpionum ≠ 19 →
      DriverBuilder.channel1 b c = some { b with channel := (c.raw, b.channel.2) }) := by
  constructor
  · rintro (h | h) <;> simp [DriverBuilder.channel1, PwmPin.toGpio, h]
  · intro h1 h2
    simp [DriverBuilder.channel1, PwmPin.toGpio, h1, h2]

/-- Witness for C4: channel1 rejects a PWM1 channel (GPIO 13) and accepts a
PWM0 channel (GPIO 12), storing it in the first slot. -/
theorem C4_channel1_contract_witness :
    DriverBuilder.channel1 DriverBuilder.new (Channel.set_pwm PwmPin.Pwm1_1) = none ∧
    DriverBuilder.channel1 DriverBuilder.new (Channel.set_pwm PwmPin.Pwm0_1) =
      some { DriverBuilder.new with
              channel := ((Channel.set_pwm PwmPin.Pwm0_1).raw, DriverBuilder.new.channel.2) } :=
  ⟨(C4_channel1_contract DriverBuilder.new (Channel.set_pwm PwmPin.Pwm1_1)).1
      (Or.inl (by decide)),
   (C4_channel1_contract DriverBuilder.new (Channel.set_pwm PwmPin.Pwm0_1)).2
      (by decide) (by decide)⟩

/-- Claim C5. Channel::disabled() yields pixel count 0, a null LED buffer,
the WS2811_STRIP_RGB layout, zero brightness, pin, invert flag and shift
amounts, and a null gamma pointer; leds() and leds_mut() on it hit the
non-null-buffer contract (modelled as `none`). -/
theorem C5_disabled_channel :
    Channel.disabled.raw.count = 0 ∧
    Channel.disabled.raw.leds = none ∧
    Channel.disabled.raw.strip_type = WS2811_STRIP_RGB ∧
    Channel.disabled.raw.brightness = 0 ∧
    Channel.disabled.raw.gpionum = 0 ∧
    Channel.disabled.raw.invert = 0 ∧
    Channel.disabled.raw.wshift = 0 ∧
    Channel.disabled.raw.rshift = 0 ∧
    Channel.disabled.raw.gshift = 0 ∧
    Channel.disabled.raw.bshift = 0 ∧
    Channel.disabled.raw.gamma = none ∧
    Channel.leds Channel.disabled = none ∧
    Channel.leds_mut Channel.disabled = none := by
  exact ⟨rfl, rfl, rfl, rfl, rfl, rfl, rfl, rfl, rfl, rfl, rfl, rfl, rfl⟩

/-- Claim C6. With a null buffer, leds()/leds_mut() hit the debug-checked
contract (modelled as `none`); with a non-null buffer and an in-range i32
count (nonnegative, which every count set through the u16 setter is), both
return a view whose length is the pixel count. -/
theorem C6_leds_length (c : Channel) :
    (c.raw.leds = none → Channel.leds c = none ∧ Channel.leds_mut c = none) ∧
    (c.raw.leds ≠ none → 0 ≤ c.raw.count → c.raw.count < (2 : Int) ^ 64 →
      ∃ v w, Channel.leds c = some v ∧ v.len = c.raw.count.toNat ∧
        Channel.leds_mut c = some w ∧ w.len = c.raw.count.toNat) := by
  constructor
  · intro h
    exact ⟨by simp [Channel.leds, h], by simp [Channel.leds_mut, h]⟩
  · intro h h0 hlt
    match hc : c.raw.leds with
    | none => exact absurd hc h
    | some p =>
      refine ⟨⟨p, intAsUsize c.raw.count⟩, ⟨p, intAsUsize c.raw.count⟩, ?_, ?_, ?_, ?_⟩
      · simp [Channel.leds, hc]
      · simp only [intAsUsize]
        omega
      · simp [Channel.leds_mut, hc]
      · simp only [intAsUsize]
        omega

/-- Witness for C6 at a channel with a non-null buffer and count 3. -/
theorem C6_leds_length_witness :
    ∃ v w,
      Channel.leds ⟨⟨0, 0, 3, 0x00100800, some 1, 0, 0, 0, 0, 0, none⟩⟩ = some v ∧
        v.len = (3 : Int).toNat ∧
        Channel.leds_mut ⟨⟨0, 0, 3, 0x00100800, some 1, 0, 0, 0, 0, 0, none⟩⟩ = some w ∧
        w.len = (3 : Int).toNat :=
  (C6_leds_length ⟨⟨0, 0, 3, 0x00100800, some 1, 0, 0, 0, 0, 0, none⟩⟩).2
    (by decide) (by decide) (by decide)

/-- Claim C7. render and wait return Ok(()) exactly when the hardware call
reports WS2811_SUCCESS, and for any other return code they return Err
carrying that exact code unchanged. -/
theorem C7_render_wait_result (d : Driver) (result : ws2811_return_t) :
    (Driver.render d result = Except.ok () ↔ result = ws2811_return_t.WS2811_SUCCESS) ∧
    (result ≠ ws2811_return_t.WS2811_SUCCESS →
      Driver.render d result = Except.error result) ∧
    (Driver.wait d result = Except.ok () ↔ result = ws2811_return_t.WS2811_SUCCESS) ∧
    (result ≠ ws2811_return_t.WS2811_SUCCESS →
      Driver.wait d result = Except.error result) := by
  cases result <;> simp [Driver.render, Driver.wait]

/-- Witness for C7: a DMA failure code is returned unchanged in the Err case. -/
theorem C7_render_wait_result_witness :
    Driver.render ⟨⟨0, none, none, 800000, 10, (Channel.disabled.raw, Channel.disabled.raw)⟩⟩
        ws2811_return_t.WS2811_ERROR_DMA =
      Except.error ws2811_return_t.WS2811_ERROR_DMA :=
  (C7_render_wait_result
    ⟨⟨0, none, none, 800000, 10, (Channel.disabled.raw, Channel.disabled.raw)⟩⟩
    ws2811_return_t.WS2811_ERROR_DMA).2.1 (by decide)

/-- Claim C8. set_brightness and change_brightness write only the brightness
field (get_brightness reads back the written value) and leave the pixel
count, strip layout, pin, invert flag, LED buffer pointer, gamma pointer and
all shift amounts unchanged. -/
theorem C8_brightness_only (c : Channel) (b : Nat) :
    Channel.get_brightness (Channel.set_brightness c b) = b ∧
    (Channel.set_brightness c b).raw.brightness = b ∧
    Channel.change_brightness c b = Channel.set_brightness c b ∧
    (Channel.set_brightness c b).raw.count = c.raw.count ∧
    (Channel.set_brightness c b).raw.strip_type = c.raw.strip_type ∧
    (Channel.set_brightness c b).raw.gpionum = c.raw.gpionum ∧
    (Channel.set_brightness c b).raw.invert = c.raw.invert ∧
    (Channel.set_brightness c b).raw.leds = c.raw.leds ∧
    (Channel.set_brightness c b).raw.gamma = c.raw.gamma ∧
    (Channel.set_brightness c b).raw.wshift = c.raw.wshift ∧
    (Channel.set_brightness c b).raw.rshift = c.raw.rshift ∧
    (Channel.set_brightness c b).raw.gshift = c.raw.gshift ∧
    (Channel.set_brightness c b).raw.bshift = c.raw.bshift := by
  exact ⟨rfl, rfl, rfl, rfl, rfl, rfl, rfl, rfl, rfl, rfl, rfl, rfl, rfl⟩

/-- Claim C9. description() is total: it returns the description bytes (up to
the NUL terminator) when they are valid UTF-8, and the empty string when they
are not; no failure path exists. -/
theorem C9_description_total (p : PiInfo) :
    (utf8Valid (strlenBytes p.info.desc) = true →
      PiInfo.description p = strlenBytes p.info.desc) ∧
    (utf8Valid (strlenBytes p.info.desc) = false →
      PiInfo.description p = []) := by
  constructor <;> intro h <;> simp [PiInfo.description, h]

/-- Witness for C9: valid UTF-8 bytes "hi" are returned up to the NUL, and an
invalid byte 0xFF yields the empty string. -/
theorem C9_description_total_witness :
    PiInfo.description ⟨⟨0, 0, 0, [104, 105, 0]⟩⟩ = [104, 105] ∧
    PiInfo.description ⟨⟨0, 0, 0, [255, 104]⟩⟩ = [] :=
  ⟨(C9_description_total ⟨⟨0, 0, 0, [104, 105, 0]⟩⟩).1 (by decide),
   (C9_description_total ⟨⟨0, 0, 0, [255, 104]⟩⟩).2 (by decide)⟩

/-- Claim C10. build() never errors and touches no hardware: it returns Ok of
a Driver with null device and board-info pointers, and stop()/drop on this
never-rendered Driver performs no ws2811_fini call and leaves it unchanged. -/
theorem C10_build_pure (b : DriverBuilder) :
    ∃ d, DriverBuilder.build b = Except.ok d ∧ d.inner.device = none ∧
      d.inner.rpi_hw = none ∧ Driver.stop d = (d, 0) ∧ Driver.drop d = (d, 0) := by
  refine ⟨_, rfl, rfl, rfl, ?_, ?_⟩ <;> simp [Driver.stop, Driver.drop]

end RpiWs281x
